import Mathlib

/-!
Shallow embedding of the `knowledge` package of the repository
(`src/knowledge/src/knowledge/retriever.py`) together with proofs of the
observable properties of its single operation.

The source defines one class, `Retriever`, with no constructor and no
instance attributes, and a single method:

    def retrieve(self, query: str) -> list[str]:
        """Retrieve results for query."""
        return [f"Result for {query}"]

The method body is a single `return` of a one-element list literal whose
element is an f-string interpolating `query` into the template
`"Result for {query}"`.  For a `str` argument the f-string is exactly the
concatenation `"Result for " + query`.
-/

/-- The `Retriever` class.  It declares no instance attributes, so its state
is empty: the Lean structure has no fields. -/
structure Retriever where

/-- `Retriever.retrieve`, translated from the source: the body is
`return [f"Result for {query}"]`, i.e. a one-element list holding the
concatenation of the literal `"Result for "` with the query string. -/
def Retriever.retrieve (_self : Retriever) (query : String) : List String :=
  ["Result for " ++ query]

/-- The same method viewed as a state-passing call: a Python method receives
`self` and may in general mutate it.  The body of `retrieve` performs no
assignment to `self` (or to anything else), so the translated call returns
the result list together with the unchanged object. -/
def Retriever.retrieveCall (self : Retriever) (query : String) :
    List String × Retriever :=
  (["Result for " ++ query], self)

/-- The same method viewed as a fallible computation: a Python call may in
general raise.  Every operation in the body of `retrieve` (f-string
formatting of a `str`, building a list literal, `return`) is non-raising,
so the translated computation is `Except.ok` of the result for every
input. -/
def Retriever.retrieveExc (self : Retriever) (query : String) :
    Except String (List String) :=
  Except.ok (self.retrieve query)

/-- `s` occurs as a contiguous substring of `t`. -/
def substringOf (s t : String) : Prop :=
  ∃ u v : String, t = u ++ s ++ v

/-- C1: for every text input `q`, the sole element of the sequence returned
by `Retriever.retrieve q` equals exactly the concatenation
`"Result for " ++ q`. -/
theorem retrieve_sole_element_eq (r : Retriever) (q : String) :
    (r.retrieve q).head? = some ("Result for " ++ q) :=
  rfl

/-- C2: for every text input `q`, `Retriever.retrieve q` returns a sequence
of length exactly 1. -/
theorem retrieve_length_one (r : Retriever) (q : String) :
    (r.retrieve q).length = 1 :=
  rfl

/-- C3: `Retriever.retrieve` is deterministic.  Two successive calls with
the same argument `q` (the second on the object state left by the first)
return equal result sequences. -/
theorem retrieve_deterministic (r : Retriever) (q : String) :
    (r.retrieveCall q).1 = ((r.retrieveCall q).2.retrieveCall q).1 :=
  rfl

/-- C4: `Retriever.retrieve` is total over its input domain: for every text
input `q` (including the empty string) the call succeeds, producing an
`Except.ok` value and never signalling failure. -/
theorem retrieve_total (r : Retriever) (q : String) :
    ∃ out : List String, r.retrieveExc q = Except.ok out :=
  ⟨r.retrieve q, rfl⟩

/-- C5: for every text input `q`, the sole element of `Retriever.retrieve q`
contains `q` as a substring. -/
theorem retrieve_contains_query (r : Retriever) (q : String) :
    substringOf q ((r.retrieve q).headD "") :=
  ⟨"Result for ", "", (String.append_empty _).symm⟩

/-- C6: `Retriever.retrieve` is stateless and free of observable side
effects: the call leaves the `Retriever` object unchanged, so only the
returned sequence (the first component) is observable. -/
theorem retrieve_stateless (r : Retriever) (q : String) :
    (r.retrieveCall q).2 = r ∧ (r.retrieveCall q).1 = r.retrieve q :=
  ⟨rfl, rfl⟩

/-- C7: `Retriever.retrieve "test"` returns exactly the single-element
sequence `["Result for test"]`. -/
theorem retrieve_test :
    (Retriever.mk).retrieve "test" = ["Result for test"] :=
  rfl

/-- C8: `Retriever.retrieve ""` (the empty-string query) returns exactly
the single-element sequence `["Result for "]`. -/
theorem retrieve_empty :
    (Retriever.mk).retrieve "" = ["Result for "] :=
  rfl

/-- C9: `Retriever.retrieve` is injective on queries: distinct queries
yield distinct result sequences. -/
theorem retrieve_injective (r : Retriever) (q₁ q₂ : String)
    (h : q₁ ≠ q₂) : r.retrieve q₁ ≠ r.retrieve q₂ := by
  intro he
  apply h
  have hs : "Result for " ++ q₁ = "Result for " ++ q₂ := by
    simpa [Retriever.retrieve] using he
  have hd : ("Result for ").data ++ q₁.data = ("Result for ").data ++ q₂.data := by
    have := congrArg String.data hs
    simpa [String.data_append] using this
  exact String.ext (List.append_cancel_left hd)

/-- Witness for C9 at the concrete queries `"a"` and `"b"`. -/
theorem retrieve_injective_witness :
    ("a" : String) ≠ "b" ∧
      (Retriever.mk).retrieve "a" ≠ (Retriever.mk).retrieve "b" :=
  ⟨by decide, retrieve_injective Retriever.mk "a" "b" (by decide)⟩

/-- C10: the query round-trips through the result: dropping the first 11
characters of the sole element of `Retriever.retrieve q` yields exactly
`q`, and the first 11 characters are exactly `"Result for "` (so the sole
element always starts with that 11-character template). -/
theorem retrieve_round_trip (r : Retriever) (q : String) :
    ((r.retrieve q).headD "").drop 11 = q ∧
      ((r.retrieve q).headD "").take 11 = "Result for " := by
  constructor
  · apply String.ext
    rw [String.data_drop]
    show (("Result for " ++ q) : String).data.drop 11 = q.data
    rw [String.data_append]
    have hlen : ("Result for ").data.length = 11 := rfl
    rw [← hlen, List.drop_left]
  · apply String.ext
    rw [String.data_take]
    show (("Result for " ++ q) : String).data.take 11 = ("Result for ").data
    rw [String.data_append]
    have hlen : ("Result for ").data.length = 11 := rfl
    rw [← hlen, List.take_left]
